import Mathlib

/-!
Shallow embedding of the request pipeline of the `anime-js-mcp-server`
repository: the TTL cache (`src/utils/cache.ts`), the circuit breaker
(`src/utils/circuit-breaker.ts`), the parameter validator
(`src/utils/validation.ts`), the request dispatcher (`src/handler.ts`),
and the knowledge-base lookup/search handlers
(`src/tools/components/get-anime-component.ts`,
`src/tools/examples/search-anime-examples.ts`,
`src/tools/repository/get-anime-docs.ts`).

Conventions of the embedding:
* JavaScript timestamps (`Date.now()`) are modelled as `Int` values passed
  explicitly to every operation that reads the clock.  An async operation
  may observe a later clock than the call that started it, so functions
  that read the clock twice take two time parameters.
* A thrown JS exception is modelled as `none` / an error constructor; all
  embedded functions are total.
* All knowledge-base strings are ASCII, so JavaScript's
  `String.prototype.toLowerCase` is modelled by ASCII lowercasing.
-/

set_option maxRecDepth 100000

namespace AnimeMcp

/-! ## String helpers (JS semantics on the ASCII data of this repository) -/

/-- ASCII lowercasing of one character (model of JS `toLowerCase` on the
ASCII-only knowledge-base data). -/
def lowerChar (c : Char) : Char :=
  if 65 ≤ c.toNat ∧ c.toNat ≤ 90 then Char.ofNat (c.toNat + 32) else c

/-- Lowercase a character list. -/
def lowerChars (l : List Char) : List Char := l.map lowerChar

/-- Lowercase a string (model of `s.toLowerCase()`). -/
def toLowerStr (s : String) : String := ⟨lowerChars s.data⟩

/-- Does `needle` occur at the very start of `hay`? -/
def matchesAt : List Char → List Char → Bool
  | [], _ => true
  | _ :: _, [] => false
  | a :: as, b :: bs => a == b && matchesAt as bs

/-- Does `needle` occur anywhere in `hay` (model of JS `includes`)? -/
def hasSub (needle : List Char) : List Char → Bool
  | [] => needle.isEmpty
  | c :: rest => matchesAt needle (c :: rest) || hasSub needle rest

/-- `strContains s sub` : does `sub` occur in `s` (model of `s.includes(sub)`). -/
def strContains (s sub : String) : Bool := hasSub sub.data s.data

/-- Association-list lookup by string key (JS `Map.get` / property access). -/
def lookupEntry {β : Type} : List (String × β) → String → Option β
  | [], _ => none
  | (k', v) :: rest, k => if k' = k then some v else lookupEntry rest k

/-- Association-list update (JS `Map.set`): replace in place, else append. -/
def setEntry {β : Type} : List (String × β) → String → β → List (String × β)
  | [], k, v => [(k, v)]
  | (k', v') :: rest, k, v =>
    if k' = k then (k, v) :: rest else (k', v') :: setEntry rest k v

/-- Association-list removal of the first entry with the key (JS `Map.delete`). -/
def delEntry {β : Type} : List (String × β) → String → List (String × β)
  | [], _ => []
  | (k', v') :: rest, k => if k' = k then rest else (k', v') :: delEntry rest k

/-! ## Expiring cache — `src/utils/cache.ts` -/

/-- `CacheItem<T>` of cache.ts: `{ data, timestamp, ttl }`. -/
structure CacheItem (α : Type) where
  data : α
  timestamp : Int
  ttl : Int
deriving DecidableEq, Repr

/-- The `Cache` class state: its private `Map<string, CacheItem<any>>`. -/
structure Cache (α : Type) where
  entries : List (String × CacheItem α)
deriving DecidableEq, Repr

/-- `private readonly defaultTTL = 5 * 60 * 1000`. -/
def defaultTTL : Int := 5 * 60 * 1000

/-- The TTL actually stored by `set`: `ttl: ttl || this.defaultTTL`.
`none` models an omitted argument; a passed `0` is falsy in JS, so it is
also replaced by the default. -/
def effTTL : Option Int → Int
  | none => defaultTTL
  | some t => if t = 0 then defaultTTL else t

/-- `Cache.get(key)` at clock `now`: returns the value (or `none`) and the
cache after the lazy expiry purge. -/
def Cache.get {α : Type} (c : Cache α) (key : String) (now : Int) :
    Option α × Cache α :=
  match lookupEntry c.entries key with
  | none => (none, c)
  | some item =>
    if now > item.timestamp + item.ttl then
      (none, ⟨delEntry c.entries key⟩)
    else
      (some item.data, c)

/-- `Cache.set(key, data, ttl?)` at clock `now`. -/
def Cache.set {α : Type} (c : Cache α) (key : String) (data : α)
    (ttl : Option Int) (now : Int) : Cache α :=
  ⟨setEntry c.entries key ⟨data, now, effTTL ttl⟩⟩

/-- `Cache.delete(key)`: whether an entry existed, and the new cache. -/
def Cache.delete {α : Type} (c : Cache α) (key : String) : Bool × Cache α :=
  ((lookupEntry c.entries key).isSome, ⟨delEntry c.entries key⟩)

/-- `Cache.clear()`. -/
def Cache.clear {α : Type} (_ : Cache α) : Cache α := ⟨[]⟩

/-- `Cache.size()`: `this.cache.size` — the raw entry count, with no expiry
check and no mutation. -/
def Cache.size {α : Type} (c : Cache α) : Nat := c.entries.length

/-! ## Circuit breaker — `src/utils/circuit-breaker.ts` -/

/-- The three states of the breaker: `'CLOSED' | 'OPEN' | 'HALF_OPEN'`. -/
inductive BState where
  | CLOSED
  | OPEN
  | HALF_OPEN
deriving DecidableEq, Repr

export BState (CLOSED OPEN HALF_OPEN)

/-- `CircuitBreakerOptions` of circuit-breaker.ts. -/
structure CircuitBreakerOptions where
  failureThreshold : Nat
  resetTimeout : Int
  monitoringPeriod : Int
deriving DecidableEq, Repr

/-- The mutable fields of the `CircuitBreaker` class. -/
structure CircuitBreakerState where
  failures : Nat
  lastFailureTime : Option Int
  state : BState
deriving DecidableEq, Repr

/-- Field initializers: `failures = 0`, `lastFailureTime = null`,
`state = 'CLOSED'`. -/
def initialBreaker : CircuitBreakerState := ⟨0, none, CLOSED⟩

/-- The options of the single shared `circuitBreakers.external` instance:
`failureThreshold: 5, resetTimeout: 60000, monitoringPeriod: 10000`. -/
def externalOptions : CircuitBreakerOptions := ⟨5, 60000, 10000⟩

/-- `shouldAttemptReset()` at clock `now`:
`lastFailureTime !== null && Date.now() - lastFailureTime >= resetTimeout`. -/
def shouldAttemptReset (opts : CircuitBreakerOptions)
    (cb : CircuitBreakerState) (now : Int) : Bool :=
  match cb.lastFailureTime with
  | none => false
  | some t => now - t ≥ opts.resetTimeout

/-- `onSuccess()`: reset the failure count and close the breaker. -/
def onSuccess (cb : CircuitBreakerState) : CircuitBreakerState :=
  { cb with failures := 0, state := CLOSED }

/-- `onFailure()` at clock `now`: count the failure, remember its time, and
open the breaker once the threshold is reached. -/
def onFailure (opts : CircuitBreakerOptions) (cb : CircuitBreakerState)
    (now : Int) : CircuitBreakerState :=
  let f := cb.failures + 1
  { failures := f
    lastFailureTime := some now
    state := if f ≥ opts.failureThreshold then OPEN else cb.state }

/-- The admission prelude of `execute` (everything before `operation()` is
invoked): when the state is `OPEN`, either move to `HALF_OPEN` (reset
timeout elapsed) or reject with the `'Circuit breaker is OPEN'` error
(`none`); any other state admits the call unchanged. -/
def tryAdmit (opts : CircuitBreakerOptions) (cb : CircuitBreakerState)
    (now : Int) : Option CircuitBreakerState :=
  match cb.state with
  | OPEN =>
    if shouldAttemptReset opts cb now then
      some { cb with state := HALF_OPEN }
    else
      none
  | _ => some cb

/-- Result of one `execute` call: the operation's value, the immediate
`'Circuit breaker is OPEN'` rejection, or the rethrown operation error. -/
inductive ExecResult (α : Type) where
  | ok (val : α)
  | rejectedOpen
  | failed
deriving DecidableEq, Repr

/-- `CircuitBreaker.execute(operation)`.  `now` is the clock at the
admission check and `endNow` the clock inside `onFailure` (the operation is
awaited in between).  The operation itself may read and update the breaker
state (the nested `call_tool` handler does exactly that), so it is passed
the state and returns `none` when it throws. -/
def execute {α : Type} (opts : CircuitBreakerOptions)
    (cb : CircuitBreakerState) (now endNow : Int)
    (op : CircuitBreakerState → Option α × CircuitBreakerState) :
    ExecResult α × CircuitBreakerState :=
  match tryAdmit opts cb now with
  | none => (.rejectedOpen, cb)
  | some cb1 =>
    match op cb1 with
    | (some v, cb2) => (.ok v, onSuccess cb2)
    | (none, cb2) => (.failed, onFailure opts cb2 endNow)

/-- How many times one `execute` call invokes its wrapped operation: `1`
when admitted, `0` when rejected while `OPEN`. -/
def executeOpCount (opts : CircuitBreakerOptions)
    (cb : CircuitBreakerState) (now : Int) : Nat :=
  match tryAdmit opts cb now with
  | none => 0
  | some _ => 1

/-- One `execute` call with a breaker-independent operation: the event
`(now, endNow, ok)` gives the two clock readings and whether the wrapped
operation succeeded. -/
def breakerStep (opts : CircuitBreakerOptions) (cb : CircuitBreakerState)
    (ev : Int × Int × Bool) : CircuitBreakerState :=
  (execute opts cb ev.1 ev.2.1 (fun c => (if ev.2.2 then some () else none, c))).2

/-- Run a sequence of `execute` calls from a given breaker state. -/
def runBreakerFrom (opts : CircuitBreakerOptions) (cb : CircuitBreakerState)
    (events : List (Int × Int × Bool)) : CircuitBreakerState :=
  events.foldl (breakerStep opts) cb

/-- Run a sequence of `execute` calls from the initial breaker state. -/
def runBreaker (opts : CircuitBreakerOptions)
    (events : List (Int × Int × Bool)) : CircuitBreakerState :=
  runBreakerFrom opts initialBreaker events

/-! ## Parameter validator — `src/utils/validation.ts` -/

/-- A JSON value arriving from the transport (the subset the server's
schemas distinguish: strings, numbers, nested objects). -/
inductive JsVal where
  | str (s : String)
  | num (n : Int)
  | obj (fields : List (String × JsVal))
deriving Repr

/-- A request's `params`: the fields of the argument object. -/
def Params : Type := List (String × JsVal)

/-- One field declaration of a zod method schema: `stringSchema`
(`z.string().min(1).max(1000)`), `optionalStringSchema`
(`z.string().optional()`), or `z.any().optional()`. -/
inductive FieldSpec where
  | requiredString
  | optionalString
  | anyOptional
deriving DecidableEq, Repr

/-- The `methodSchemas` registry of validation.ts, in source order. -/
def methodSchemas : List (String × List (String × FieldSpec)) := [
  ("get_anime_component", [("componentName", .requiredString)]),
  ("list_anime_components", [("category", .optionalString)]),
  ("get_anime_example", [("exampleType", .requiredString)]),
  ("search_anime_examples", [("query", .requiredString)]),
  ("get_anime_docs", [("topic", .requiredString)]),
  ("list_resources", []),
  ("list_resource_templates", []),
  ("list_tools", []),
  ("list_prompts", []),
  ("read_resource", [("uri", .requiredString)]),
  ("get_prompt", [("name", .requiredString), ("arguments", .anyOptional)]),
  ("call_tool", [("name", .requiredString), ("arguments", .anyOptional)])]

/-- Check one schema field against the params: the list of zod issues
(rendered as `path: message`) and, when valid and present, the field for
the sanitized output object. -/
def checkField (spec : FieldSpec) (fname : String) (params : Params) :
    List String × Option (String × JsVal) :=
  match spec, lookupEntry params fname with
  | .requiredString, none => ([fname ++ ": Required"], none)
  | .requiredString, some (.str s) =>
    if s.length < 1 then
      ([fname ++ ": String must contain at least 1 character(s)"], none)
    else if s.length > 1000 then
      ([fname ++ ": String must contain at most 1000 character(s)"], none)
    else
      ([], some (fname, .str s))
  | .requiredString, some (.num _) =>
    ([fname ++ ": Expected string, received number"], none)
  | .requiredString, some (.obj _) =>
    ([fname ++ ": Expected string, received object"], none)
  | .optionalString, none => ([], none)
  | .optionalString, some (.str s) => ([], some (fname, .str s))
  | .optionalString, some (.num _) =>
    ([fname ++ ": Expected string, received number"], none)
  | .optionalString, some (.obj _) =>
    ([fname ++ ": Expected string, received object"], none)
  | .anyOptional, none => ([], none)
  | .anyOptional, some v => ([], some (fname, v))

/-- `validateAndSanitizeParams(method, params)`: no registered schema
passes the params through unchanged (with a logged warning); otherwise
`schema.parse` either returns the object rebuilt from the declared fields
(zod strips unknown keys) or throws one error message aggregating every
violation. -/
def validateAndSanitizeParams (method : String) (params : Params) :
    Except String Params :=
  match lookupEntry methodSchemas method with
  | none => .ok params
  | some schema =>
    let results := schema.map (fun f => checkField f.2 f.1 params)
    let errs := (results.map Prod.fst).flatten
    if errs.isEmpty then
      .ok (results.filterMap Prod.snd)
    else
      .error ("Validation failed for " ++ method ++ ": " ++
        String.intercalate ", " errs)

/-! ## Request dispatcher — `src/handler.ts` -/

/-- Outcome of `handleRequest`: the handler's value, a validation error
thrown before the breaker, the breaker's `'Circuit breaker is OPEN'`
rejection, or a handler error rethrown through the breaker. -/
inductive ReqResult (α : Type) where
  | ok (val : α)
  | validationError (msg : String)
  | breakerOpen
  | handlerFailed
deriving DecidableEq, Repr

/-- The method names `setupHandlers` registers, each dispatched through
`handleRequest`. -/
def registeredMethods : List String :=
  ["list_resources", "list_resource_templates", "list_tools",
   "read_resource", "list_prompts", "get_prompt", "call_tool"]

/-- The keys of `toolHandlers` (`src/tools/index.ts`). -/
def toolHandlerNames : List String :=
  ["get_anime_component", "list_anime_components", "get_anime_example",
   "search_anime_examples", "get_anime_docs"]

/-- `handleRequest(method, params, handler)`: validate, then run the
handler through `circuitBreakers.external.execute`; every error is logged
and rethrown unchanged. -/
def handleRequest {α : Type} (method : String) (params : Params)
    (cb : CircuitBreakerState) (now endNow : Int)
    (handler : Params → CircuitBreakerState →
      Option α × CircuitBreakerState) :
    ReqResult α × CircuitBreakerState :=
  match validateAndSanitizeParams method params with
  | .error msg => (.validationError msg, cb)
  | .ok vp =>
    match execute externalOptions cb now endNow (handler vp) with
    | (.ok v, cb') => (.ok v, cb')
    | (.rejectedOpen, cb') => (.breakerOpen, cb')
    | (.failed, cb') => (.handlerFailed, cb')

/-- How many times a `handleRequest` call invokes its handler: `0` when
validation throws or the breaker rejects, else `1`. -/
def handleRequestOpCount (method : String) (params : Params)
    (cb : CircuitBreakerState) (now : Int) : Nat :=
  match validateAndSanitizeParams method params with
  | .error _ => 0
  | .ok _ => executeOpCount externalOptions cb now

/-- The `arguments` object handed to a tool handler:
`handler(params || {})` with `params = validatedParams.arguments`. -/
def argsOf (vp : Params) : Params :=
  match lookupEntry vp "arguments" with
  | some (.obj fields) => fields
  | _ => []

/-- The operation the `CallToolRequestSchema` handler passes to the outer
breaker: check the tool name, look up the tool handler, and run it inside
a second `circuitBreakers.external.execute` on the same shared breaker.
`runTool` abstracts the tool handler's own behavior; a missing name, an
unknown tool, an inner rejection, or an inner failure all surface as a
thrown error (`none`). -/
def callToolOp {α : Type} (vp : Params) (innerNow innerEnd : Int)
    (runTool : String → CircuitBreakerState →
      Option α × CircuitBreakerState) :
    CircuitBreakerState → Option α × CircuitBreakerState :=
  fun cb =>
    match lookupEntry vp "name" with
    | some (.str name) =>
      if toolHandlerNames.contains name then
        match execute externalOptions cb innerNow innerEnd (runTool name) with
        | (.ok v, cb') => (some v, cb')
        | (.rejectedOpen, cb') => (none, cb')
        | (.failed, cb') => (none, cb')
      else
        (none, cb)
    | _ => (none, cb)

/-! ## Knowledge base and lookup/search handlers -/

/-- One `{ type: "text", text }` block of a tool response. -/
structure TextContent where
  type : String
  text : String
deriving DecidableEq, Repr

/-- A tool response body: `{ content: [...] }`. -/
structure Response where
  content : List TextContent
deriving DecidableEq, Repr

/-- The first text block of a response (all responses here have one). -/
def responseText (r : Response) : String :=
  match r.content with
  | [] => ""
  | c :: _ => c.text

/-- One entry of the `docs` table of get-anime-docs.ts. -/
structure DocEntry where
  title : String
  content : String
deriving DecidableEq, Repr

/-- One entry of the `examples` list of search-anime-examples.ts. -/
structure SearchExample where
  id : String
  title : String
  description : String
  category : String
  tags : List String
  code : String
deriving DecidableEq, Repr

/-- One parameter record of the `components` table
(the source field `default` is a Lean keyword, hence `defaultVal`). -/
structure ParamInfo where
  name : String
  type : String
  description : String
  defaultVal : Option String
deriving DecidableEq, Repr

/-- One entry of the `components` table of get-anime-component.ts
(the source fields `syntax` and `example` are Lean keywords, hence
`syntaxStr` / `exampleStr`; fields absent on some entries are `Option`s,
mirroring the TS `'field' in component` checks). -/
structure ComponentInfo where
  name : String
  type : String
  description : String
  syntaxStr : String
  parameters : List ParamInfo
  properties : Option (List String)
  methods : Option (List String)
  callbacks : Option (List String)
  exampleStr : String
deriving DecidableEq, Repr

/-- The `docs` table of `getDocumentation` (get-anime-docs.ts): topic key, title, content. -/
def docsTable : List (String × DocEntry) := [
  ("getting-started", ⟨"Getting Started with Anime.js", "# Getting Started with Anime.js\n\n## Installation\n\n### Via CDN\n```html\n<script src=\"https://cdnjs.cloudflare.com/ajax/libs/animejs/3.2.1/anime.min.js\"></script>\n```\n\n### Via npm\n```bash\nnpm install animejs\n```\n\n```javascript\nimport anime from \x27animejs/lib/anime.es.js\x27;\n```\n\n## Basic Usage\n\n### Simple Animation\n```javascript\nanime(\x7b\n  targets: \x27.my-element\x27,\n  translateX: 250,\n  duration: 2000\n\x7d);\n```\n\n### Multiple Properties\n```javascript\nanime(\x7b\n  targets: \x27.element\x27,\n  translateX: 250,\n  rotate: \x271turn\x27,\n  backgroundColor: \x27#FFF\x27,\n  duration: 3000\n\x7d);\n```\n\n### Multiple Targets\n```javascript\nanime(\x7b\n  targets: [\x27.element1\x27, \x27.element2\x27, document.querySelector(\x27.element3\x27)],\n  translateY: 100,\n  duration: 1000\n\x7d);\n```\n\n## Key Concepts\n\n### Targets\n- CSS Selectors: `.class`, `#id`, `div`\n- DOM Elements: `document.querySelector(\x27.element\x27)`\n- Arrays: `[\x27.el1\x27, \x27.el2\x27]`\n- Objects: `\x7bx: 100, y: 200\x7d` for non-DOM animations\n\n### Properties\n- Transforms: `translateX`, `rotate`, `scale`\n- CSS Properties: `opacity`, `color`, `width`\n- Object Properties: Custom object properties\n- SVG Attributes: `cx`, `r`, `stroke-width`\n\n### Values\n- Absolute: `100`\n- Relative: `\x27+=100\x27`, `\x27-=50\x27`\n- Unit specific: `\x27100px\x27`, `\x2750%\x27`, `\x271.5em\x27`\n- Keywords: `\x27left\x27`, `\x27center\x27`\n- From-to: `[0, 100]`\n\n## Next Steps\n- Learn about [Animation Controls](#animation-controls)\n- Explore [Easing Functions](#easing)\n- Try [Timeline](#timeline) for complex sequences\n- Use [Stagger](#stagger) for multiple elements"⟩),
  ("animation-controls", ⟨"Animation Controls", "# Animation Controls\n\n## Basic Controls\n\n### Play/Pause\n```javascript\nconst animation = anime(\x7b\n  targets: \x27.element\x27,\n  translateX: 250,\n  duration: 2000,\n  autoplay: false // Don\x27t start automatically\n\x7d);\n\n// Control methods\nanimation.play();    // Play animation\nanimation.pause();   // Pause animation\nanimation.restart(); // Restart from beginning\nanimation.reverse(); // Reverse direction\n```\n\n### Seek to Time\n```javascript\nanimation.seek(1000); // Jump to 1 second\nanimation.seek(animation.duration * 0.5); // Jump to 50%\n```\n\n## Animation Properties\n\n### Direction\n```javascript\nanime(\x7b\n  targets: \x27.element\x27,\n  translateX: 250,\n  direction: \x27reverse\x27,    // \x27normal\x27, \x27reverse\x27, \x27alternate\x27\n  duration: 2000\n\x7d);\n```\n\n### Looping\n```javascript\nanime(\x7b\n  targets: \x27.element\x27,\n  rotate: \x271turn\x27,\n  loop: true,           // Infinite loop\n  // loop: 3,           // Loop 3 times\n  direction: \x27alternate\x27, // Reverse on alternate loops\n  duration: 1000\n\x7d);\n```\n\n### Autoplay\n```javascript\nconst animation = anime(\x7b\n  targets: \x27.element\x27,\n  translateX: 250,\n  autoplay: false,\n  duration: 2000\n\x7d);\n\n// Start manually\nsetTimeout(() => animation.play(), 1000);\n```\n\n## Advanced Controls\n\n### Progress-based Control\n```javascript\nconst animation = anime(\x7b\n  targets: \x27.element\x27,\n  translateX: 250,\n  autoplay: false,\n  duration: 2000\n\x7d);\n\n// Control with slider\nconst slider = document.querySelector(\x27.slider\x27);\nslider.addEventListener(\x27input\x27, () => \x7b\n  animation.seek(animation.duration * (slider.value / 100));\n\x7d);\n```\n\n### Animation States\n```javascript\nanimation.began;      // true if animation has started\nanimation.paused;     // true if animation is paused\nanimation.completed;  // true if animation has completed\nanimation.reversed;   // true if animation is reversed\n```\n\n### Remove Animation\n```javascript\nanime.remove(\x27.element\x27); // Remove all animations from element\nanimation.pause();        // Pause before removing\n```"⟩),
  ("easing", ⟨"Easing Functions", "# Easing Functions\n\n## Built-in Easing Functions\n\n### Linear\n```javascript\nanime(\x7b\n  targets: \x27.element\x27,\n  translateX: 250,\n  easing: \x27linear\x27,\n  duration: 2000\n\x7d);\n```\n\n### Quadratic\n```javascript\neasing: \x27easeInQuad\x27     // Slow start\neasing: \x27easeOutQuad\x27    // Slow end  \neasing: \x27easeInOutQuad\x27  // Slow start and end\n```\n\n### Cubic\n```javascript\neasing: \x27easeInCubic\x27\neasing: \x27easeOutCubic\x27\neasing: \x27easeInOutCubic\x27\n```\n\n### Other Functions\n```javascript\n// Quartic\neasing: \x27easeInQuart\x27\neasing: \x27easeOutQuart\x27\neasing: \x27easeInOutQuart\x27\n\n// Quintic\neasing: \x27easeInQuint\x27\neasing: \x27easeOutQuint\x27\neasing: \x27easeInOutQuint\x27\n\n// Sine\neasing: \x27easeInSine\x27\neasing: \x27easeOutSine\x27\neasing: \x27easeInOutSine\x27\n\n// Exponential\neasing: \x27easeInExpo\x27\neasing: \x27easeOutExpo\x27\neasing: \x27easeInOutExpo\x27\n\n// Circular\neasing: \x27easeInCirc\x27\neasing: \x27easeOutCirc\x27\neasing: \x27easeInOutCirc\x27\n```\n\n## Spring and Physics\n\n### Elastic\n```javascript\neasing: \x27easeInElastic\x27\neasing: \x27easeOutElastic\x27\neasing: \x27easeInOutElastic\x27\n\n// With parameters\neasing: \x27easeOutElastic(1, .6)\x27  // amplitude, period\n```\n\n### Back\n```javascript\neasing: \x27easeInBack\x27\neasing: \x27easeOutBack\x27\neasing: \x27easeInOutBack\x27\n\n// With overshoot parameter\neasing: \x27easeOutBack(1.7)\x27\n```\n\n### Bounce\n```javascript\neasing: \x27easeInBounce\x27\neasing: \x27easeOutBounce\x27\neasing: \x27easeInOutBounce\x27\n```\n\n## Custom Easing\n\n### Cubic Bezier\n```javascript\nanime(\x7b\n  targets: \x27.element\x27,\n  translateX: 250,\n  easing: \x27cubicBezier(.5, .05, .1, .3)\x27,\n  duration: 2000\n\x7d);\n```\n\n### Spring Physics\n```javascript\nanime(\x7b\n  targets: \x27.element\x27,\n  translateX: 250,\n  easing: \x27spring(1, 80, 10, 0)\x27, // mass, stiffness, damping, velocity\n  duration: anime.random(1200, 1800)\n\x7d);\n```\n\n### Steps\n```javascript\nanime(\x7b\n  targets: \x27.element\x27,\n  translateX: 250,\n  easing: \x27steps(10)\x27, // 10 discrete steps\n  duration: 2000\n\x7d);\n```\n\n## Per-Property Easing\n```javascript\nanime(\x7b\n  targets: \x27.element\x27,\n  translateX: \x7b\n    value: 250,\n    easing: \x27easeOutExpo\x27\n  \x7d,\n  rotate: \x7b\n    value: 360,\n    easing: \x27easeInOutSine\x27\n  \x7d,\n  duration: 2000\n\x7d);\n```"⟩),
  ("performance", ⟨"Performance Optimization", "# Performance Optimization\n\n## Best Practices\n\n### 1. Use Hardware-Accelerated Properties\n```javascript\n// ✅ Good - Uses GPU acceleration\nanime(\x7b\n  targets: \x27.element\x27,\n  translateX: 250,    // transform\n  rotateY: 180,      // transform\n  scale: 1.5,        // transform\n  opacity: 0.5       // opacity\n\x7d);\n\n// ❌ Avoid - Causes layout/repaint\nanime(\x7b\n  targets: \x27.element\x27,\n  left: 250,         // layout\n  width: 300,        // layout\n  padding: 20        // layout\n\x7d);\n```\n\n### 2. Batch DOM Operations\n```javascript\n// ✅ Good - Single animation\nanime(\x7b\n  targets: \x27.element\x27,\n  translateX: 250,\n  translateY: 100,\n  rotate: 180,\n  scale: 1.2,\n  duration: 1000\n\x7d);\n\n// ❌ Avoid - Multiple separate animations\nanime(\x7btargets: \x27.element\x27, translateX: 250\x7d);\nanime(\x7btargets: \x27.element\x27, translateY: 100\x7d);\nanime(\x7btargets: \x27.element\x27, rotate: 180\x7d);\n```\n\n### 3. Use will-change CSS Property\n```css\n.animated-element \x7b\n  will-change: transform, opacity;\n\x7d\n\n/* Remove when animation is done */\n.animation-complete \x7b\n  will-change: auto;\n\x7d\n```\n\n### 4. Limit Concurrent Animations\n```javascript\n// ✅ Good - Use timeline for sequences\nconst tl = anime.timeline();\ntl.add(\x7btargets: \x27.el1\x27, translateX: 100\x7d)\n  .add(\x7btargets: \x27.el2\x27, translateX: 100\x7d, \x27-=500\x27);\n\n// ❌ Avoid - Too many concurrent animations\nfor(let i = 0; i < 100; i++) \x7b\n  anime(\x7btargets: `.item-$\x7bi\x7d`, rotate: 360\x7d);\n\x7d\n```\n\n## Memory Management\n\n### Remove Completed Animations\n```javascript\nconst animation = anime(\x7b\n  targets: \x27.element\x27,\n  translateX: 250,\n  complete: () => \x7b\n    // Clean up after completion\n    anime.remove(\x27.element\x27);\n  \x7d\n\x7d);\n```\n\n### Use Object Pooling for Particles\n```javascript\nconst particlePool = [];\n\nfunction createParticle() \x7b\n  return particlePool.pop() || document.createElement(\x27div\x27);\n\x7d\n\nfunction releaseParticle(particle) \x7b\n  anime.remove(particle);\n  particlePool.push(particle);\n\x7d\n```\n\n## Optimization Techniques\n\n### 1. Reduce Animation Complexity\n```javascript\n// ✅ Simple easing for performance\nanime(\x7b\n  targets: \x27.element\x27,\n  translateX: 250,\n  easing: \x27easeOutQuad\x27, // Simple easing\n  duration: 1000\n\x7d);\n\n// ⚠️ Complex easing - use sparingly\nanime(\x7b\n  targets: \x27.element\x27,\n  translateX: 250,\n  easing: \x27easeOutElastic(1, .6)\x27, // Complex calculation\n  duration: 1000\n\x7d);\n```\n\n### 2. Use requestAnimationFrame for Custom Updates\n```javascript\nlet isAnimating = false;\n\nfunction updateAnimation() \x7b\n  if (!isAnimating) return;\n  \n  // Your update logic here\n  requestAnimationFrame(updateAnimation);\n\x7d\n\n// Start/stop efficiently\nfunction startAnimation() \x7b\n  isAnimating = true;\n  requestAnimationFrame(updateAnimation);\n\x7d\n\nfunction stopAnimation() \x7b\n  isAnimating = false;\n\x7d\n```\n\n### 3. Throttle Scroll/Resize Animations\n```javascript\nlet ticking = false;\n\nfunction updateScrollAnimation() \x7b\n  // Animation logic\n  ticking = false;\n\x7d\n\nwindow.addEventListener(\x27scroll\x27, () => \x7b\n  if (!ticking) \x7b\n    requestAnimationFrame(updateScrollAnimation);\n    ticking = true;\n  \x7d\n\x7d);\n```\n\n## Profiling and Debugging\n\n### Monitor Performance\n```javascript\nconst animation = anime(\x7b\n  targets: \x27.element\x27,\n  translateX: 250,\n  update: (anim) => \x7b\n    // Monitor performance\n    console.log(\x27Progress:\x27, anim.progress + \x27%\x27);\n  \x7d\n\x7d);\n\n// Check animation properties\nconsole.log(\x27Duration:\x27, animation.duration);\nconsole.log(\x27Remaining:\x27, animation.remaining);\n```\n\n### Use Browser DevTools\n- Performance tab to check for jank\n- Rendering tab to highlight repaints\n- Console timing for animation duration"⟩),
  ("timeline", ⟨"Timeline and Sequencing", "# Timeline and Sequencing\n\n## Basic Timeline\n\n### Creating a Timeline\n```javascript\nconst tl = anime.timeline(\x7b\n  easing: \x27easeOutExpo\x27,\n  duration: 750\n\x7d);\n```\n\n### Adding Animations\n```javascript\ntl.add(\x7b\n  targets: \x27.title\x27,\n  translateY: [-100, 0],\n  opacity: [0, 1]\n\x7d).add(\x7b\n  targets: \x27.subtitle\x27,\n  translateX: [-50, 0],\n  opacity: [0, 1]\n\x7d).add(\x7b\n  targets: \x27.button\x27,\n  scale: [0, 1]\n\x7d);\n```\n\n## Timeline Control\n\n### Playback Control\n```javascript\ntl.play();      // Play timeline\ntl.pause();     // Pause timeline\ntl.restart();   // Restart timeline\ntl.reverse();   // Reverse direction\ntl.seek(1500);  // Jump to specific time\n```\n\n### Timeline Properties\n```javascript\nconsole.log(tl.duration);    // Total duration\nconsole.log(tl.progress);    // Current progress %\nconsole.log(tl.currentTime); // Current time\nconsole.log(tl.remaining);   // Remaining time\n```\n\n## Advanced Timing\n\n### Offset Control\n```javascript\nconst tl = anime.timeline();\n\ntl.add(\x7b\n  targets: \x27.el1\x27,\n  translateX: 100\n\x7d).add(\x7b\n  targets: \x27.el2\x27,\n  translateX: 100,\n  offset: 500  // Start 500ms after timeline start\n\x7d).add(\x7b\n  targets: \x27.el3\x27,\n  translateX: 100,\n  offset: \x27-=200\x27  // Start 200ms before previous animation ends\n\x7d).add(\x7b\n  targets: \x27.el4\x27,\n  translateX: 100,\n  offset: \x27+=300\x27  // Start 300ms after previous animation ends\n\x7d);\n```\n\n### Relative Timing\n```javascript\ntl.add(\x7b\n  targets: \x27.el1\x27,\n  translateX: 100,\n  duration: 1000\n\x7d).add(\x7b\n  targets: \x27.el2\x27,\n  translateX: 100,\n  offset: \x27-=800\x27  // Overlap by 800ms\n\x7d);\n```\n\n## Complex Sequences\n\n### Nested Timelines\n```javascript\n// Sub-timeline for intro\nconst introTl = anime.timeline();\nintroTl.add(\x7b\n  targets: \x27.logo\x27,\n  scale: [0, 1],\n  duration: 800\n\x7d).add(\x7b\n  targets: \x27.tagline\x27,\n  opacity: [0, 1],\n  translateY: [20, 0],\n  duration: 600\n\x7d);\n\n// Main timeline\nconst mainTl = anime.timeline();\nmainTl.add(introTl)  // Add entire intro timeline\n  .add(\x7b\n    targets: \x27.menu-item\x27,\n    translateY: [-30, 0],\n    opacity: [0, 1],\n    delay: anime.stagger(100),\n    duration: 500\n  \x7d);\n```\n\n### Conditional Animations\n```javascript\nconst tl = anime.timeline();\n\ntl.add(\x7b\n  targets: \x27.element\x27,\n  translateX: 100\n\x7d);\n\n// Add animation based on condition\nif (window.innerWidth > 768) \x7b\n  tl.add(\x7b\n    targets: \x27.desktop-only\x27,\n    opacity: [0, 1]\n  \x7d);\n\x7d\n```\n\n## Timeline Callbacks\n\n### Timeline-level Callbacks\n```javascript\nconst tl = anime.timeline(\x7b\n  begin: () => console.log(\x27Timeline started\x27),\n  update: (tl) => console.log(\x27Progress:\x27, tl.progress + \x27%\x27),\n  complete: () => console.log(\x27Timeline completed\x27),\n  loopBegin: () => console.log(\x27Loop started\x27),\n  loopComplete: () => console.log(\x27Loop completed\x27)\n\x7d);\n```\n\n### Animation-level Callbacks in Timeline\n```javascript\ntl.add(\x7b\n  targets: \x27.element\x27,\n  translateX: 100,\n  begin: () => console.log(\x27This animation started\x27),\n  complete: () => console.log(\x27This animation completed\x27)\n\x7d);\n```\n\n## Practical Examples\n\n### Page Load Sequence\n```javascript\nconst pageLoadTl = anime.timeline(\x7b\n  easing: \x27easeOutExpo\x27\n\x7d);\n\npageLoadTl\n  .add(\x7b\n    targets: \x27.header\x27,\n    translateY: [-100, 0],\n    opacity: [0, 1],\n    duration: 800\n  \x7d)\n  .add(\x7b\n    targets: \x27.hero-title\x27,\n    scale: [0.8, 1],\n    opacity: [0, 1],\n    duration: 600,\n    offset: \x27-=400\x27\n  \x7d)\n  .add(\x7b\n    targets: \x27.hero-subtitle\x27,\n    translateY: [30, 0],\n    opacity: [0, 1],\n    duration: 500,\n    offset: \x27-=200\x27\n  \x7d)\n  .add(\x7b\n    targets: \x27.cta-button\x27,\n    scale: [0, 1],\n    duration: 400,\n    offset: \x27-=100\x27\n  \x7d);\n```\n\n### Staggered Cards with Timeline\n```javascript\nconst cardsTl = anime.timeline();\n\n// Animate container first\ncardsTl.add(\x7b\n  targets: \x27.cards-container\x27,\n  opacity: [0, 1],\n  duration: 500\n\x7d);\n\n// Then animate cards with stagger\ncardsTl.add(\x7b\n  targets: \x27.card\x27,\n  translateY: [50, 0],\n  scale: [0.8, 1],\n  opacity: [0, 1],\n  delay: anime.stagger(100),\n  duration: 600,\n  offset: \x27-=200\x27\n\x7d);\n```"⟩),
  ("stagger", ⟨"Stagger Effects", "# Stagger Effects\n\n## Basic Stagger\n\n### Simple Delay Stagger\n```javascript\nanime(\x7b\n  targets: \x27.item\x27,\n  translateY: [50, 0],\n  opacity: [0, 1],\n  delay: anime.stagger(100) // 100ms delay between each element\n\x7d);\n```\n\n### Function-based Stagger\n```javascript\nanime(\x7b\n  targets: \x27.item\x27,\n  translateY: [50, 0],\n  delay: (el, i) => i * 100 // Same as above, manual approach\n\x7d);\n```\n\n## Direction Control\n\n### Start Position\n```javascript\nanime(\x7b\n  targets: \x27.item\x27,\n  scale: [0, 1],\n  delay: anime.stagger(50, \x7b\n    from: \x27first\x27,  // \x27first\x27, \x27last\x27, \x27center\x27, or index number\n  \x7d)\n\x7d);\n\n// From specific index\nanime(\x7b\n  targets: \x27.item\x27,\n  opacity: [0, 1],\n  delay: anime.stagger(50, \x7b\n    from: 3  // Start from the 4th element (0-indexed)\n  \x7d)\n\x7d);\n```\n\n### Direction\n```javascript\nanime(\x7b\n  targets: \x27.item\x27,\n  translateX: [100, 0],\n  delay: anime.stagger(100, \x7b\n    direction: \x27reverse\x27  // \x27normal\x27 or \x27reverse\x27\n  \x7d)\n\x7d);\n```\n\n## Grid-based Stagger\n\n### Basic Grid\n```javascript\nanime(\x7b\n  targets: \x27.grid-item\x27,\n  scale: [0, 1],\n  delay: anime.stagger(50, \x7b\n    grid: [8, 6],    // 8 columns, 6 rows\n    from: \x27center\x27   // Start from center\n  \x7d)\n\x7d);\n```\n\n### Grid with Coordinates\n```javascript\nanime(\x7b\n  targets: \x27.grid-item\x27,\n  rotate: [180, 0],\n  delay: anime.stagger(30, \x7b\n    grid: [10, 10],\n    from: [2, 3]  // Start from grid position [2, 3]\n  \x7d)\n\x7d);\n```\n\n## Advanced Stagger\n\n### Range-based Values\n```javascript\nanime(\x7b\n  targets: \x27.item\x27,\n  translateX: anime.stagger([-100, 100]), // Distribute values from -100 to 100\n  rotate: anime.stagger([0, 360]),        // Distribute rotation values\n  delay: anime.stagger(50)\n\x7d);\n```\n\n### Easing in Stagger\n```javascript\nanime(\x7b\n  targets: \x27.item\x27,\n  translateY: [100, 0],\n  delay: anime.stagger(50, \x7b\n    easing: \x27easeOutQuad\x27  // Easing function for stagger timing\n  \x7d)\n\x7d);\n```\n\n## Complex Stagger Patterns\n\n### Wave Effect\n```javascript\nanime(\x7b\n  targets: \x27.wave-item\x27,\n  translateY: [\n    \x7bvalue: -40, duration: 600, easing: \x27easeOutSine\x27\x7d,\n    \x7bvalue: 0, duration: 600, easing: \x27easeInSine\x27\x7d\n  ],\n  delay: anime.stagger(100, \x7b\n    from: \x27center\x27\n  \x7d),\n  loop: true\n\x7d);\n```\n\n### Ripple Effect\n```javascript\nanime(\x7b\n  targets: \x27.ripple-item\x27,\n  scale: [\n    \x7bvalue: 1.2, duration: 300, easing: \x27easeOutSine\x27\x7d,\n    \x7bvalue: 1, duration: 300, easing: \x27easeInSine\x27\x7d\n  ],\n  delay: anime.stagger(50, \x7b\n    grid: [15, 15],\n    from: \x27center\x27\n  \x7d)\n\x7d);\n```\n\n### Random Stagger\n```javascript\nanime(\x7b\n  targets: \x27.random-item\x27,\n  translateX: () => anime.random(-50, 50),\n  translateY: () => anime.random(-50, 50),\n  rotate: () => anime.random(0, 360),\n  delay: (el, i) => anime.random(0, 1000), // Random delay up to 1 second\n  duration: () => anime.random(800, 1200)  // Random duration\n\x7d);\n```\n\n## Practical Examples\n\n### Text Reveal\n```javascript\n// Split text into spans first\nconst textWrapper = document.querySelector(\x27.text\x27);\ntextWrapper.innerHTML = textWrapper.textContent.replace(/\\S/g, \"<span class=\x27letter\x27>$&</span>\");\n\nanime(\x7b\n  targets: \x27.text .letter\x27,\n  translateY: [100, 0],\n  opacity: [0, 1],\n  easing: \x27easeOutExpo\x27,\n  duration: 1400,\n  delay: (el, i) => 30 * i\n\x7d);\n```\n\n### Loading Dots\n```javascript\nanime(\x7b\n  targets: \x27.loading-dot\x27,\n  translateY: [-20, 0],\n  scale: [1, 1.2, 1],\n  delay: anime.stagger(200),\n  duration: 600,\n  loop: true,\n  direction: \x27alternate\x27,\n  easing: \x27easeInOutSine\x27\n\x7d);\n```\n\n### Menu Animation\n```javascript\nanime(\x7b\n  targets: \x27.menu-item\x27,\n  translateX: [-50, 0],\n  opacity: [0, 1],\n  delay: anime.stagger(100, \x7b\n    from: \x27first\x27\n  \x7d),\n  duration: 500,\n  easing: \x27easeOutBack\x27\n\x7d);\n```\n\n### Card Gallery\n```javascript\nanime(\x7b\n  targets: \x27.gallery-card\x27,\n  translateY: [60, 0],\n  scale: [0.9, 1],\n  opacity: [0, 1],\n  delay: anime.stagger(100, \x7b\n    grid: [3, 4],  // 3 columns, 4 rows\n    from: \x27center\x27\n  \x7d),\n  duration: 800,\n  easing: \x27easeOutElastic(1, .6)\x27\n\x7d);\n```"⟩)
]

/-- The `examples` list of `searchExamples` (search-anime-examples.ts). -/
def animeExamples : List SearchExample := [
  ⟨"basic-transform", "Basic Transform Animation", "Simple transform animation with translate, rotate, and scale", "Basic", ["transform", "translate", "rotate", "scale", "basic", "simple"], "anime(\x7b\n  targets: \x27.element\x27,\n  translateX: 250,\n  rotate: \x271turn\x27,\n  scale: 1.5,\n  duration: 2000\n\x7d);"⟩,
  ⟨"timeline-sequence", "Timeline Sequence Animation", "Sequential animations using timeline with offset control", "Timeline", ["timeline", "sequence", "sequential", "offset", "chain"], "const tl = anime.timeline();\ntl.add(\x7b\n  targets: \x27.title\x27,\n  translateY: [-100, 0]\n\x7d).add(\x7b\n  targets: \x27.subtitle\x27,\n  translateX: [-50, 0],\n  offset: \x27-=600\x27\n\x7d);"⟩,
  ⟨"stagger-grid", "Staggered Grid Animation", "Grid-based stagger animation from center outward", "Stagger", ["stagger", "grid", "delay", "multiple", "elements"], "anime(\x7b\n  targets: \x27.grid .item\x27,\n  scale: [0, 1],\n  delay: anime.stagger(100, \x7b\n    grid: [8, 6],\n    from: \x27center\x27\n  \x7d)\n\x7d);"⟩,
  ⟨"svg-path", "SVG Path Animation", "Animate along SVG paths and draw strokes", "SVG", ["svg", "path", "stroke", "draw", "morphing", "vector"], "anime(\x7b\n  targets: \x27path\x27,\n  strokeDashoffset: [anime.setDashoffset, 0],\n  duration: 1500\n\x7d);"⟩,
  ⟨"morphing", "CSS Property Morphing", "Animate CSS properties for shape and color morphing", "Morphing", ["morph", "css", "properties", "shape", "color", "size"], "anime(\x7b\n  targets: \x27.box\x27,\n  width: [50, 200],\n  backgroundColor: \x27#FF6B6B\x27,\n  borderRadius: [\x270%\x27, \x2750%\x27],\n  duration: 2000\n\x7d);"⟩,
  ⟨"keyframes", "Keyframes Animation", "Complex animations using keyframes with different timings", "Advanced", ["keyframes", "complex", "timing", "advanced", "multiple"], "anime(\x7b\n  targets: \x27.element\x27,\n  keyframes: [\n    \x7btranslateY: -40, duration: 300\x7d,\n    \x7brotateZ: 360, duration: 800\x7d,\n    \x7btranslateY: 0, duration: 800\x7d\n  ]\n\x7d);"⟩,
  ⟨"text-animation", "Text Animation", "Animate text letter by letter with stagger effects", "Text", ["text", "letters", "typography", "stagger", "writing"], "anime(\x7b\n  targets: \x27.text .letter\x27,\n  translateY: [\"1.1em\", 0],\n  delay: (el, i) => 50 * i\n\x7d);"⟩,
  ⟨"elastic-bounce", "Elastic and Bounce Effects", "Using elastic and bounce easing functions for dynamic effects", "Easing", ["elastic", "bounce", "easing", "spring", "physics"], "anime(\x7b\n  targets: \x27.element\x27,\n  translateX: 300,\n  easing: \x27easeOutElastic(1, .8)\x27,\n  duration: 1500\n\x7d);"⟩,
  ⟨"loading-spinner", "Loading Spinner Animation", "Create animated loading spinners and loaders", "UI", ["loading", "spinner", "loader", "ui", "rotation"], "anime(\x7b\n  targets: \x27.spinner\x27,\n  rotate: \x271turn\x27,\n  duration: 1000,\n  loop: true,\n  easing: \x27linear\x27\n\x7d);"⟩,
  ⟨"button-hover", "Button Hover Effects", "Interactive button animations on hover and click", "Interactive", ["button", "hover", "click", "interactive", "ui"], "const button = document.querySelector(\x27.button\x27);\nbutton.addEventListener(\x27mouseenter\x27, () => \x7b\n  anime(\x7b\n    targets: button,\n    scale: 1.1,\n    duration: 300\n  \x7d);\n\x7d);"⟩,
  ⟨"card-flip", "Card Flip Animation", "3D card flip effects with perspective transforms", "3D", ["card", "flip", "3d", "perspective", "transform"], "anime(\x7b\n  targets: \x27.card\x27,\n  rotateY: 180,\n  duration: 800,\n  easing: \x27easeInOutQuart\x27\n\x7d);"⟩,
  ⟨"particles", "Particle System", "Create particle effects with random movements", "Effects", ["particles", "random", "effects", "system", "dots"], "anime(\x7b\n  targets: \x27.particle\x27,\n  translateX: () => anime.random(-500, 500),\n  translateY: () => anime.random(-500, 500),\n  scale: () => anime.random(0.1, 2),\n  duration: 3000\n\x7d);"⟩
]

/-- The `components` table of `getComponentInfo` (get-anime-component.ts). -/
def componentsTable : List (String × ComponentInfo) := [
  ("anime", ⟨"anime()", "Main Animation Function", "The primary function for creating animations in Anime.js", "anime(animationObject)",
    [⟨"targets", "string | Element | NodeList | Array", "CSS selector or DOM elements to animate", none⟩,
     ⟨"duration", "number", "Animation duration in milliseconds", some "1000"⟩,
     ⟨"easing", "string | Array", "Easing function", some "easeOutElastic"⟩,
     ⟨"delay", "number | Function", "Delay before animation starts", some "0"⟩,
     ⟨"direction", "string", "Animation direction", some "normal"⟩,
     ⟨"loop", "boolean | number", "Loop animation", some "false"⟩,
     ⟨"autoplay", "boolean", "Start animation automatically", some "true"⟩],
    some ["translateX", "translateY", "translateZ", "rotate", "rotateX", "rotateY", "rotateZ", "scale", "scaleX", "scaleY", "scaleZ", "skewX", "skewY", "opacity", "backgroundColor", "color", "borderRadius", "width", "height", "left", "top"], some ["play()", "pause()", "restart()", "reverse()", "seek(time)", "remove()"], some ["update", "begin", "complete", "loopBegin", "loopComplete", "change", "changeBegin", "changeComplete"], "anime(\x7b\n  targets: \x27.element\x27,\n  translateX: 250,\n  rotate: \x271turn\x27,\n  backgroundColor: \x27#FFF\x27,\n  duration: 2000,\n  easing: \x27easeInOutQuad\x27,\n  complete: () => console.log(\x27Animation finished!\x27)\n\x7d);"⟩),
  ("timeline", ⟨"anime.timeline()", "Timeline Function", "Create and control a sequence of animations", "anime.timeline(parameters)",
    [⟨"easing", "string", "Default easing for all animations", none⟩,
     ⟨"duration", "number", "Default duration for all animations", none⟩,
     ⟨"direction", "string", "Default direction for all animations", none⟩,
     ⟨"loop", "boolean | number", "Loop the entire timeline", none⟩,
     ⟨"autoplay", "boolean", "Start timeline automatically", some "true"⟩],
    none, some ["add(animation, offset)", "play()", "pause()", "restart()", "reverse()", "seek(time)"], none, "const tl = anime.timeline(\x7b\n  easing: \x27easeOutExpo\x27,\n  duration: 750\n\x7d);\n\ntl.add(\x7b\n  targets: \x27.title\x27,\n  translateY: [-100, 0],\n  opacity: [0, 1]\n\x7d).add(\x7b\n  targets: \x27.subtitle\x27,\n  translateX: [-50, 0],\n  opacity: [0, 1],\n  offset: \x27-=600\x27\n\x7d).add(\x7b\n  targets: \x27.button\x27,\n  scale: [0, 1],\n  offset: \x27-=500\x27\n\x7d);"⟩),
  ("stagger", ⟨"anime.stagger()", "Stagger Function", "Create staggered delays for multiple elements", "anime.stagger(value, options)",
    [⟨"value", "number", "Base delay value in milliseconds", none⟩,
     ⟨"grid", "Array", "[columns, rows] for grid-based stagger", none⟩,
     ⟨"from", "string | number | Array", "Starting point for stagger", none⟩,
     ⟨"direction", "string", "Stagger direction", some "normal"⟩,
     ⟨"easing", "string", "Easing function for stagger values", none⟩],
    none, none, none, "// Basic stagger\nanime(\x7b\n  targets: \x27.item\x27,\n  translateY: 50,\n  delay: anime.stagger(100)\n\x7d);\n\n// Grid stagger\nanime(\x7b\n  targets: \x27.grid-item\x27,\n  scale: [0, 1],\n  delay: anime.stagger(50, \x7b\n    grid: [10, 10],\n    from: \x27center\x27\n  \x7d)\n\x7d);"⟩),
  ("path", ⟨"anime.path()", "SVG Path Function", "Create path-based animations for SVG elements", "anime.path(pathElement)",
    [⟨"pathElement", "string | Element", "SVG path element or selector", none⟩],
    some ["translateX", "translateY", "rotate"], none, none, "const path = anime.path(\x27svg path\x27);\n\nanime(\x7b\n  targets: \x27.element\x27,\n  translateX: path(\x27x\x27),\n  translateY: path(\x27y\x27),\n  rotate: path(\x27angle\x27),\n  duration: 3000,\n  easing: \x27easeInOutQuad\x27\n\x7d);"⟩),
  ("random", ⟨"anime.random()", "Utility Function", "Generate random values for animations", "anime.random(min, max)",
    [⟨"min", "number", "Minimum value", none⟩,
     ⟨"max", "number", "Maximum value", none⟩],
    none, none, none, "anime(\x7b\n  targets: \x27.element\x27,\n  translateX: () => anime.random(-100, 100),\n  translateY: () => anime.random(-100, 100),\n  scale: () => anime.random(0.5, 2),\n  duration: 2000\n\x7d);"⟩)
]

/-! ### get-anime-docs.ts -/

/-- `Object.keys(docs)` in insertion order. -/
def docsKeys : List String := docsTable.map Prod.fst

/-- `topic.toLowerCase().replace(/[-_]/g, '-')`. -/
def normalizeTopic (topic : String) : String :=
  ⟨(lowerChars topic.data).map (fun c => if c = '-' ∨ c = '_' then '-' else c)⟩

/-- The fixed part of `getDocumentation`'s not-found text after the
echoed topic. -/
def docsNotFoundTail : String :=
  "\" not found. Available topics:\n\n" ++
    String.intercalate "\n" (docsKeys.map (fun key => "- " ++ key)) ++
    "\n\nTry searching for topics like: getting-started, " ++
    "animation-controls, easing, performance, timeline, stagger"

/-- The not-found text of `getDocumentation`. -/
def docsNotFoundText (topic : String) : String :=
  "Documentation for \"" ++ topic ++ docsNotFoundTail

/-- `getDocumentation(topic)`: look up the normalized topic; unknown topics
get the not-found text (a normal result, nothing is thrown). -/
def getDocumentation (topic : String) : Response :=
  match lookupEntry docsTable (normalizeTopic topic) with
  | none => ⟨[⟨"text", docsNotFoundText topic⟩]⟩
  | some doc => ⟨[⟨"text", doc.content⟩]⟩

/-! ### get-anime-component.ts -/

/-- `Object.keys(components)` in insertion order. -/
def componentKeys : List String := componentsTable.map Prod.fst

/-- `componentName.toLowerCase().replace(/[()]/g, '')`. -/
def normalizeComponentName (s : String) : String :=
  ⟨(lowerChars s.data).filter (fun c => ¬(c = '(' ∨ c = ')'))⟩

/-- The fixed part of `getComponentInfo`'s not-found text after the
echoed name. -/
def componentNotFoundTail : String :=
  "\" not found. Available components: " ++
    String.intercalate ", " componentKeys

/-- The not-found text of `getComponentInfo`. -/
def componentNotFoundText (componentName : String) : String :=
  "Component \"" ++ componentName ++ componentNotFoundTail

/-- The markdown body `getComponentInfo` assembles for a found component
(every table entry has a `parameters` array, and arrays are truthy in JS,
so the `if (component.parameters)` branch always runs). -/
def buildComponentContent (c : ComponentInfo) : String :=
  "# " ++ c.name ++ "\n\n" ++
  "**Type:** " ++ c.type ++ "\n\n" ++
  "**Description:** " ++ c.description ++ "\n\n" ++
  "**Syntax:** `" ++ c.syntaxStr ++ "`\n\n" ++
  ("## Parameters\n\n" ++
    String.join (c.parameters.map (fun p =>
      "- **" ++ p.name ++ "** (" ++ p.type ++ "): " ++ p.description ++
      (match p.defaultVal with
       | some d => if d.isEmpty then "" else " - Default: `" ++ d ++ "`"
       | none => "") ++ "\n")) ++ "\n") ++
  (match c.properties with
   | some l => "## Animatable Properties\n\n" ++
       String.intercalate "\n" (l.map (fun prop => "- " ++ prop)) ++ "\n\n"
   | none => "") ++
  (match c.methods with
   | some l => "## Methods\n\n" ++
       String.intercalate "\n" (l.map (fun m => "- " ++ m)) ++ "\n\n"
   | none => "") ++
  (match c.callbacks with
   | some l => "## Callbacks\n\n" ++
       String.intercalate "\n" (l.map (fun cb => "- " ++ cb)) ++ "\n\n"
   | none => "") ++
  (if c.exampleStr.isEmpty then ""
   else "## Example\n\n```javascript\n" ++ c.exampleStr ++ "\n```\n")

/-- `getComponentInfo(componentName)`: look up the normalized name;
unknown names get the not-found text listing the valid components
(a normal result, nothing is thrown). -/
def getComponentInfo (componentName : String) : Response :=
  match lookupEntry componentsTable (normalizeComponentName componentName) with
  | none => ⟨[⟨"text", componentNotFoundText componentName⟩]⟩
  | some c => ⟨[⟨"text", buildComponentContent c⟩]⟩

/-- `handleGetAnimeComponent(params)` with the response cache at clock
`now`.  `none` models the TypeError thrown by
`componentName.toLowerCase()` when the `componentName` argument is absent
or not a string (the `call_tool` path does not validate tool arguments, so
this is reachable). -/
def handleGetAnimeComponent (args : Params) (c : Cache Response)
    (now : Int) : Option (Response × Cache Response) :=
  match lookupEntry args "componentName" with
  | some (.str componentName) =>
    let cacheKey := "anime-component-" ++ toLowerStr componentName
    match Cache.get c cacheKey now with
    | (some cached, c') => some (cached, c')
    | (none, c') =>
      let componentInfo := getComponentInfo componentName
      some (componentInfo,
        Cache.set c' cacheKey componentInfo (some (30 * 60 * 1000)) now)
  | _ => none

/-! ### search-anime-examples.ts -/

/-- The per-example match test of `searchExamples`, exactly as the source
filter writes it: the query is lowercased once; title, description,
category and code are lowercased before the `includes`, but each tag is
compared as is (`tag.includes(queryLower)`). -/
def matchesQuery (queryLower : List Char) (e : SearchExample) : Bool :=
  hasSub queryLower (lowerChars e.title.data) ||
  hasSub queryLower (lowerChars e.description.data) ||
  hasSub queryLower (lowerChars e.category.data) ||
  e.tags.any (fun tag => hasSub queryLower tag.data) ||
  hasSub queryLower (lowerChars e.code.data)

/-- The match test as the specification words it: a case-insensitive
substring match of the query across all five fields, the tags included. -/
def specMatchesQuery (query : String) (e : SearchExample) : Bool :=
  let ql := lowerChars query.data
  hasSub ql (lowerChars e.title.data) ||
  hasSub ql (lowerChars e.description.data) ||
  hasSub ql (lowerChars e.category.data) ||
  e.tags.any (fun tag => hasSub ql (lowerChars tag.data)) ||
  hasSub ql (lowerChars e.code.data)

/-- The no-match text of `searchExamples`, with its fixed suggested terms. -/
def noMatchesText (query : String) : String :=
  "No examples found for \"" ++ query ++
    ("\". Try searching for terms like:\n- transform, rotate, scale\n" ++
      "- timeline, sequence\n- stagger, grid\n- svg, path\n" ++
      "- text, letters\n- elastic, bounce\n- morphing, keyframes")

/-- The results text of `searchExamples` for a non-empty match list. -/
def buildSearchContent (query : String) (matched : List SearchExample) :
    String :=
  "# Anime.js Examples Search Results\n\n" ++
  ("Found " ++ toString matched.length ++ " example(s) for \"" ++ query ++
    "\":\n\n") ++
  String.join (matched.enum.map (fun ie =>
    "## " ++ toString (ie.1 + 1) ++ ". " ++ ie.2.title ++ "\n" ++
    "**Category:** " ++ ie.2.category ++ "\n" ++
    "**Description:** " ++ ie.2.description ++ "\n" ++
    "**Tags:** " ++ String.intercalate ", " ie.2.tags ++ "\n\n" ++
    "**Code Preview:**\n```javascript\n" ++ ie.2.code ++ "\n```\n\n" ++
    "*Use `get_anime_example` with type `" ++ ie.2.id ++
      "` for complete example*\n\n" ++
    "---\n\n"))

/-- `searchExamples(query)`: filter the knowledge base with the source's
match test; zero matches yield the structured no-match response (nothing
is thrown), otherwise the assembled results text. -/
def searchExamples (query : String) : Response :=
  let queryLower := lowerChars query.data
  let matched := animeExamples.filter (matchesQuery queryLower)
  if matched.length = 0 then
    ⟨[⟨"text", noMatchesText query⟩]⟩
  else
    ⟨[⟨"text", buildSearchContent query matched⟩]⟩

/-- A tool handler run that always throws (models a failing tool
invocation; tool handlers never touch the breaker themselves). -/
def failingToolRun : String → CircuitBreakerState →
    Option Unit × CircuitBreakerState :=
  fun _ c => (none, c)

/-- One complete failing `call_tool` request against the shared external
breaker, at clock `t`: `handleRequest('call_tool', ...)` whose tool
handler (an existing tool, `get_anime_docs`) throws. -/
def callToolFailStep (cb : CircuitBreakerState) (t : Int) :
    CircuitBreakerState :=
  (handleRequest "call_tool" [("name", JsVal.str "get_anime_docs")] cb t t
    (fun vp => callToolOp vp t t failingToolRun)).2

/-! ## Lemmas about the circuit breaker -/

theorem tryAdmit_some_ne_open {opts : CircuitBreakerOptions}
    {cb cb1 : CircuitBreakerState} {now : Int}
    (h : tryAdmit opts cb now = some cb1) : cb1.state ≠ OPEN := by
  obtain ⟨f, l, s⟩ := cb
  cases s <;> simp only [tryAdmit] at h
  · injection h with h1; subst h1; simp
  · split at h
    · injection h with h1; subst h1; simp
    · simp at h
  · injection h with h1; subst h1; simp

theorem tryAdmit_some_fields {opts : CircuitBreakerOptions}
    {cb cb1 : CircuitBreakerState} {now : Int}
    (h : tryAdmit opts cb now = some cb1) :
    cb1.failures = cb.failures ∧ cb1.lastFailureTime = cb.lastFailureTime := by
  obtain ⟨f, l, s⟩ := cb
  cases s <;> simp only [tryAdmit] at h
  · injection h with h1; subst h1; exact ⟨rfl, rfl⟩
  · split at h
    · injection h with h1; subst h1; exact ⟨rfl, rfl⟩
    · simp at h
  · injection h with h1; subst h1; exact ⟨rfl, rfl⟩

theorem tryAdmit_of_ne_open {opts : CircuitBreakerOptions}
    {cb : CircuitBreakerState} {now : Int} (h : cb.state ≠ OPEN) :
    tryAdmit opts cb now = some cb := by
  obtain ⟨f, l, s⟩ := cb
  cases s
  · rfl
  · exact absurd rfl h
  · rfl

theorem execute_open_rejected {α : Type} {opts : CircuitBreakerOptions}
    {cb : CircuitBreakerState} {now : Int}
    (hs : cb.state = OPEN)
    (hr : shouldAttemptReset opts cb now = false) (endNow : Int)
    (op : CircuitBreakerState → Option α × CircuitBreakerState) :
    execute opts cb now endNow op = (.rejectedOpen, cb) ∧
      executeOpCount opts cb now = 0 := by
  have hAdm : tryAdmit opts cb now = none := by
    obtain ⟨f, l, s⟩ := cb
    subst hs
    simp [tryAdmit, hr]
  exact ⟨by simp [execute, hAdm], by simp [executeOpCount, hAdm]⟩

/-! ## Claim theorems: circuit breaker -/

/-- Claim C2: with the external breaker's `failureThreshold = 5`, five
consecutive failing `execute` calls (at any clock readings) drive the
initial `CLOSED` breaker to `OPEN` with `failures = 5` and
`lastFailureTime = e5`; a sixth call before `resetTimeout` (60000 ms)
since the last failure is rejected with the breaker-open error without
invoking any wrapped operation (count 0, state untouched); the first call
after `resetTimeout` has elapsed is admitted in `HALF_OPEN` and invoked
exactly once, and on success the breaker returns to `CLOSED` with the
failure count reset to `0`. -/
theorem c2_breaker_threshold_cycle
    (t1 e1 t2 e2 t3 e3 t4 e4 t5 e5 n6 e6 n7 e7 : Int)
    {α : Type} (v : α)
    (h6 : n6 - e5 < 60000) (h7 : n7 - e5 ≥ 60000) :
    runBreakerFrom externalOptions initialBreaker
      [(t1, e1, false), (t2, e2, false), (t3, e3, false),
       (t4, e4, false), (t5, e5, false)] = ⟨5, some e5, OPEN⟩ ∧
    (∀ (β : Type)
       (op : CircuitBreakerState → Option β × CircuitBreakerState),
       execute externalOptions ⟨5, some e5, OPEN⟩ n6 e6 op =
         (.rejectedOpen, ⟨5, some e5, OPEN⟩)) ∧
    executeOpCount externalOptions ⟨5, some e5, OPEN⟩ n6 = 0 ∧
    tryAdmit externalOptions ⟨5, some e5, OPEN⟩ n7 =
      some ⟨5, some e5, HALF_OPEN⟩ ∧
    executeOpCount externalOptions ⟨5, some e5, OPEN⟩ n7 = 1 ∧
    execute externalOptions ⟨5, some e5, OPEN⟩ n7 e7 (fun c => (some v, c)) =
      (.ok v, ⟨0, some e5, CLOSED⟩) := by
  have hr6 : shouldAttemptReset externalOptions ⟨5, some e5, OPEN⟩ n6 =
      false := by
    simp only [shouldAttemptReset, externalOptions, decide_eq_false_iff_not]
    omega
  have hr7 : shouldAttemptReset externalOptions ⟨5, some e5, OPEN⟩ n7 =
      true := by
    simp only [shouldAttemptReset, externalOptions, decide_eq_true_eq]
    omega
  have hAdm7 : tryAdmit externalOptions ⟨5, some e5, OPEN⟩ n7 =
      some ⟨5, some e5, HALF_OPEN⟩ := by
    simp [tryAdmit, hr7]
  refine ⟨rfl, ?_, ?_, hAdm7, ?_, ?_⟩
  · intro β op
    exact (execute_open_rejected rfl hr6 e6 op).1
  · exact (execute_open_rejected rfl hr6 e6
      (fun c => ((none : Option Unit), c))).2
  · simp [executeOpCount, hAdm7]
  · simp [execute, hAdm7, onSuccess]

/-- Witness for C2 at concrete clock readings. -/
theorem c2_breaker_threshold_cycle_witness :
    ((100 : Int) - 4 < 60000 ∧ (60005 : Int) - 4 ≥ 60000) ∧
    (runBreakerFrom externalOptions initialBreaker
      [(0, 0, false), (1, 1, false), (2, 2, false),
       (3, 3, false), (4, 4, false)] = ⟨5, some 4, OPEN⟩ ∧
    (∀ (β : Type)
       (op : CircuitBreakerState → Option β × CircuitBreakerState),
       execute externalOptions ⟨5, some 4, OPEN⟩ 100 101 op =
         (.rejectedOpen, ⟨5, some 4, OPEN⟩)) ∧
    executeOpCount externalOptions ⟨5, some 4, OPEN⟩ 100 = 0 ∧
    tryAdmit externalOptions ⟨5, some 4, OPEN⟩ 60005 =
      some ⟨5, some 4, HALF_OPEN⟩ ∧
    executeOpCount externalOptions ⟨5, some 4, OPEN⟩ 60005 = 1 ∧
    execute externalOptions ⟨5, some 4, OPEN⟩ 60005 60006
        (fun c => (some 0, c)) =
      (.ok (0 : Nat), ⟨0, some 4, CLOSED⟩)) :=
  ⟨⟨by decide, by decide⟩,
    c2_breaker_threshold_cycle 0 0 1 1 2 2 3 3 4 4 100 101 60005 60006
      (0 : Nat) (by decide) (by decide)⟩

/-- Claim C3 counterexample: the claim says no further call to `execute`
is admitted while the state is `HALF_OPEN`.  In the code the only gate is
the `state === 'OPEN'` check: after five failures a trial call admitted at
clock 60004 moves the breaker to `HALF_OPEN`, and a second call arriving
at clock 60005 — while that trial call is still in flight — is admitted as
well and invokes its own wrapped operation (`executeOpCount = 1`, not 0). -/
theorem c3_single_flight_counterexample :
    tryAdmit externalOptions
      (runBreakerFrom externalOptions initialBreaker
        [(0, 0, false), (1, 1, false), (2, 2, false),
         (3, 3, false), (4, 4, false)]) 60004 =
      some ⟨5, some 4, HALF_OPEN⟩ ∧
    tryAdmit externalOptions ⟨5, some 4, HALF_OPEN⟩ 60005 =
      some ⟨5, some 4, HALF_OPEN⟩ ∧
    executeOpCount externalOptions ⟨5, some 4, HALF_OPEN⟩ 60005 = 1 := by
  refine ⟨by decide, by decide, by decide⟩

/-- Claim C3 (amended): while the breaker is `HALF_OPEN`, a further call
to `execute` is admitted unchanged and invokes its wrapped operation
exactly once — the breaker does not enforce single-flight in `HALF_OPEN`;
only the `OPEN` state rejects calls. -/
theorem c3_half_open_admits (cb : CircuitBreakerState) (now : Int)
    (h : cb.state = HALF_OPEN) :
    tryAdmit externalOptions cb now = some cb ∧
      executeOpCount externalOptions cb now = 1 := by
  have hne : cb.state ≠ OPEN := by rw [h]; simp
  have hAdm := @tryAdmit_of_ne_open externalOptions cb now hne
  exact ⟨hAdm, by simp [executeOpCount, hAdm]⟩

/-- Witness for the amended C3 at a concrete `HALF_OPEN` state. -/
theorem c3_half_open_admits_witness :
    (⟨5, some 4, HALF_OPEN⟩ : CircuitBreakerState).state = HALF_OPEN ∧
    (tryAdmit externalOptions ⟨5, some 4, HALF_OPEN⟩ 60005 =
        some ⟨5, some 4, HALF_OPEN⟩ ∧
      executeOpCount externalOptions ⟨5, some 4, HALF_OPEN⟩ 60005 = 1) :=
  ⟨rfl, c3_half_open_admits ⟨5, some 4, HALF_OPEN⟩ 60005 rfl⟩

/-! ## Claim C4: OPEN implies the failure threshold was reached -/

/-- The invariant of claim C4. -/
def BreakerInv (opts : CircuitBreakerOptions)
    (cb : CircuitBreakerState) : Prop :=
  cb.state = OPEN → cb.failures ≥ opts.failureThreshold

theorem breakerInv_onFailure {opts : CircuitBreakerOptions}
    {cb : CircuitBreakerState} (h : cb.state ≠ OPEN) (now : Int) :
    BreakerInv opts (onFailure opts cb now) := by
  intro hs
  simp only [onFailure] at hs ⊢
  by_cases hge : cb.failures + 1 ≥ opts.failureThreshold
  · exact hge
  · rw [if_neg hge] at hs
    exact absurd hs h

theorem breakerInv_step {opts : CircuitBreakerOptions}
    {cb : CircuitBreakerState} (hinv : BreakerInv opts cb)
    (ev : Int × Int × Bool) :
    BreakerInv opts (breakerStep opts cb ev) := by
  unfold breakerStep execute
  cases hAdm : tryAdmit opts cb ev.1 with
  | none => exact hinv
  | some cb1 =>
    cases ev.2.2
    · simpa using breakerInv_onFailure (tryAdmit_some_ne_open hAdm) ev.2.1
    · simp only [if_pos trivial]
      intro hs
      simp [onSuccess] at hs

theorem breakerInv_run {opts : CircuitBreakerOptions}
    {cb : CircuitBreakerState} (hinv : BreakerInv opts cb)
    (events : List (Int × Int × Bool)) :
    BreakerInv opts (runBreakerFrom opts cb events) := by
  induction events generalizing cb with
  | nil => exact hinv
  | cons ev rest ih => exact ih (breakerInv_step hinv ev)

/-- Claim C4: in every breaker state reachable from the initial state by
any sequence of `execute` calls, with any pattern of operation successes
and failures and any clock readings, `state = OPEN` implies
`failures ≥ failureThreshold`. -/
theorem c4_open_implies_threshold (opts : CircuitBreakerOptions)
    (events : List (Int × Int × Bool))
    (h : (runBreaker opts events).state = OPEN) :
    (runBreaker opts events).failures ≥ opts.failureThreshold :=
  breakerInv_run (fun hs => by simp [initialBreaker] at hs) events h

/-- Witness for C4: five concrete failures open the external breaker and
the threshold bound holds there. -/
theorem c4_open_implies_threshold_witness :
    (runBreaker externalOptions
      [(0, 0, false), (1, 1, false), (2, 2, false),
       (3, 3, false), (4, 4, false)]).state = OPEN ∧
    (runBreaker externalOptions
      [(0, 0, false), (1, 1, false), (2, 2, false),
       (3, 3, false), (4, 4, false)]).failures ≥
      externalOptions.failureThreshold :=
  ⟨rfl, c4_open_implies_threshold externalOptions
    [(0, 0, false), (1, 1, false), (2, 2, false),
     (3, 3, false), (4, 4, false)] rfl⟩

/-! ## Lemmas about the association-list map -/

theorem lookup_setEntry_self {β : Type} (l : List (String × β))
    (k : String) (v : β) : lookupEntry (setEntry l k v) k = some v := by
  induction l with
  | nil => simp [setEntry, lookupEntry]
  | cons p rest ih =>
    by_cases h : p.1 = k
    · simp [setEntry, h, lookupEntry]
    · simp only [setEntry, h, if_false]
      simpa [lookupEntry, h] using ih

theorem lookup_not_mem {β : Type} {l : List (String × β)} {k : String}
    (h : k ∉ l.map Prod.fst) : lookupEntry l k = none := by
  induction l with
  | nil => rfl
  | cons p rest ih =>
    simp only [List.map_cons, List.mem_cons] at h
    push_neg at h
    simp only [lookupEntry, h.1, if_neg (Ne.symm h.1)]
    exact ih h.2

theorem mem_keys_setEntry {β : Type} {l : List (String × β)}
    {k a : String} {v : β}
    (h : a ∈ (setEntry l k v).map Prod.fst) :
    a = k ∨ a ∈ l.map Prod.fst := by
  induction l with
  | nil => simpa [setEntry] using h
  | cons p rest ih =>
    by_cases hp : p.1 = k
    · simp only [setEntry, hp, if_true, List.map_cons, List.mem_cons] at h
      rcases h with h | h
      · exact .inl h
      · exact .inr (by simp [h])
    · simp only [setEntry, hp, if_false, List.map_cons, List.mem_cons] at h
      rcases h with h | h
      · exact .inr (by simp [h])
      · rcases ih h with h | h
        · exact .inl h
        · exact .inr (by simp [h])

theorem nodup_setEntry {β : Type} {l : List (String × β)} {k : String}
    (v : β) (hnd : (l.map Prod.fst).Nodup) :
    ((setEntry l k v).map Prod.fst).Nodup := by
  induction l with
  | nil => simp [setEntry]
  | cons p rest ih =>
    simp only [List.map_cons, List.nodup_cons] at hnd
    by_cases hp : p.1 = k
    · simp only [setEntry, hp, if_true, List.map_cons, List.nodup_cons]
      exact ⟨hp ▸ hnd.1, hnd.2⟩
    · simp only [setEntry, hp, if_false, List.map_cons, List.nodup_cons]
      refine ⟨fun hmem => ?_, ih hnd.2⟩
      rcases mem_keys_setEntry hmem with h | h
      · exact hp h
      · exact hnd.1 h

theorem lookup_delEntry_self {β : Type} {l : List (String × β)}
    {k : String} (hnd : (l.map Prod.fst).Nodup) :
    lookupEntry (delEntry l k) k = none := by
  induction l with
  | nil => rfl
  | cons p rest ih =>
    simp only [List.map_cons, List.nodup_cons] at hnd
    by_cases hp : p.1 = k
    · simp only [delEntry, hp, if_true]
      exact lookup_not_mem (hp ▸ hnd.1)
    · simp only [delEntry, hp, if_false, lookupEntry,
        if_neg hp]
      exact ih hnd.2

theorem delEntry_length {β : Type} {l : List (String × β)} {k : String}
    {v : β} (h : lookupEntry l k = some v) :
    (delEntry l k).length + 1 = l.length := by
  induction l with
  | nil => simp [lookupEntry] at h
  | cons p rest ih =>
    by_cases hp : p.1 = k
    · simp [delEntry, hp]
    · simp only [lookupEntry, hp, if_false] at h
      simp only [delEntry, hp, if_false, List.length_cons]
      rw [← ih h]

/-! ## Claim theorems: expiring cache -/

/-- Claim C5 counterexample: the claim quantifies over every duration
`ttl`.  For `ttl = 0` the source stores `ttl || defaultTTL`, i.e. the
5-minute default, so at clock `1` — strictly past `storedAt + ttl = 0` —
`get` still returns the value instead of absent. -/
theorem c5_zero_ttl_counterexample :
    ((1 : Int) > 0 + 0) ∧
    (Cache.get
      (Cache.set (Cache.mk ([] : List (String × CacheItem Nat)))
        "k" 7 (some 0) 0) "k" 1).1 = some 7 :=
  ⟨by decide, by decide⟩

/-- Claim C5 (amended to every `ttl ≠ 0`; a `ttl` of `0` is falsy in
`ttl: ttl || this.defaultTTL` and is silently replaced by the 5-minute
default): after `set k v ttl` at clock `t0`, `get k` returns `v` and
leaves the cache unchanged at every clock `now ≤ t0 + ttl` (so repeated
reads keep returning `v`), and at any clock `now > t0 + ttl` it returns
absent and deletes the expired entry as a side effect. -/
theorem c5_cache_ttl_visibility {α : Type} (c : Cache α) (k : String)
    (v : α) (ttl t0 now : Int)
    (hnd : (c.entries.map Prod.fst).Nodup) (httl : ttl ≠ 0) :
    (now ≤ t0 + ttl →
      Cache.get (Cache.set c k v (some ttl) t0) k now =
        (some v, Cache.set c k v (some ttl) t0)) ∧
    (now > t0 + ttl →
      (Cache.get (Cache.set c k v (some ttl) t0) k now).1 = none ∧
      lookupEntry
        ((Cache.get (Cache.set c k v (some ttl) t0) k now).2).entries k =
        none) := by
  have heff : effTTL (some ttl) = ttl := by simp [effTTL, httl]
  have hlook : lookupEntry (Cache.set c k v (some ttl) t0).entries k =
      some ⟨v, t0, ttl⟩ := by
    simp only [Cache.set, heff]
    exact lookup_setEntry_self c.entries k ⟨v, t0, ttl⟩
  constructor
  · intro hle
    simp only [Cache.get, hlook]
    rw [if_neg (by omega)]
  · intro hgt
    simp only [Cache.get, hlook]
    rw [if_pos (by omega)]
    refine ⟨rfl, ?_⟩
    simp only [Cache.set]
    exact lookup_delEntry_self (nodup_setEntry _ hnd)

/-- Witness for the amended C5 at concrete inputs. -/
theorem c5_cache_ttl_visibility_witness :
    (((Cache.mk ([] : List (String × CacheItem Nat))).entries.map
        Prod.fst).Nodup ∧ (10 : Int) ≠ 0) ∧
    ((5 ≤ (0 : Int) + 10 →
      Cache.get (Cache.set (Cache.mk ([] : List (String × CacheItem Nat)))
        "k" 7 (some 10) 0) "k" 5 =
        (some 7, Cache.set (Cache.mk ([] : List (String × CacheItem Nat)))
          "k" 7 (some 10) 0)) ∧
    ((5 : Int) > 0 + 10 →
      (Cache.get (Cache.set (Cache.mk ([] : List (String × CacheItem Nat)))
        "k" 7 (some 10) 0) "k" 5).1 = none ∧
      lookupEntry
        ((Cache.get (Cache.set (Cache.mk ([] : List (String × CacheItem Nat)))
          "k" 7 (some 10) 0) "k" 5).2).entries "k" = none)) :=
  ⟨⟨by simp, by decide⟩,
    c5_cache_ttl_visibility (Cache.mk []) "k" 7 10 0 5 (by simp) (by decide)⟩

/-- Claim C6: an entry whose TTL has passed is still stored (so `size`,
which is the raw `Map.size` with no expiry awareness and no mutation,
still counts it), `get` on its key reports it absent, and that `get`
purges it — the size drops by exactly one only then. -/
theorem c6_size_counts_expired {α : Type} (c : Cache α) (k : String)
    (v : α) (ttl : Option Int) (t0 now : Int)
    (hexp : now > t0 + effTTL ttl) :
    lookupEntry (Cache.set c k v ttl t0).entries k =
      some ⟨v, t0, effTTL ttl⟩ ∧
    (Cache.get (Cache.set c k v ttl t0) k now).1 = none ∧
    Cache.size (Cache.set c k v ttl t0) =
      Cache.size (Cache.get (Cache.set c k v ttl t0) k now).2 + 1 := by
  have hlook : lookupEntry (Cache.set c k v ttl t0).entries k =
      some ⟨v, t0, effTTL ttl⟩ :=
    lookup_setEntry_self c.entries k ⟨v, t0, effTTL ttl⟩
  refine ⟨hlook, ?_, ?_⟩
  · simp only [Cache.get, hlook]
    rw [if_pos (by omega)]
  · simp only [Cache.get, hlook]
    rw [if_pos (by omega)]
    simp only [Cache.size]
    exact (delEntry_length hlook).symm

/-- Witness for C6 at concrete inputs. -/
theorem c6_size_counts_expired_witness :
    ((400000 : Int) > 0 + effTTL (some 10)) ∧
    (lookupEntry
        (Cache.set (Cache.mk ([] : List (String × CacheItem Nat)))
          "k" 7 (some 10) 0).entries "k" = some ⟨7, 0, effTTL (some 10)⟩ ∧
    (Cache.get (Cache.set (Cache.mk ([] : List (String × CacheItem Nat)))
        "k" 7 (some 10) 0) "k" 400000).1 = none ∧
    Cache.size (Cache.set (Cache.mk ([] : List (String × CacheItem Nat)))
        "k" 7 (some 10) 0) =
      Cache.size (Cache.get
        (Cache.set (Cache.mk ([] : List (String × CacheItem Nat)))
          "k" 7 (some 10) 0) "k" 400000).2 + 1) :=
  ⟨by decide,
    c6_size_counts_expired (Cache.mk []) "k" 7 (some 10) 0 400000
      (by decide)⟩

/-! ## Lemmas about substring search and list predicates -/

theorem hasSub_append (xs ys n : List Char) (h : hasSub n ys = true) :
    hasSub n (xs ++ ys) = true := by
  induction xs with
  | nil => exact h
  | cons c rest ih =>
    cases rest ++ ys with
    | nil => simp at ih; simp [hasSub, ih]
    | cons d tail =>
      simp only [List.cons_append] at ih ⊢
      simp [hasSub, ih]

theorem strContains_append_right (a b k : String)
    (h : strContains b k = true) : strContains (a ++ b) k = true := by
  obtain ⟨la⟩ := a
  obtain ⟨lb⟩ := b
  exact hasSub_append la lb k.data h

theorem any_congr {α : Type} {l : List α} {f g : α → Bool}
    (h : ∀ x ∈ l, f x = g x) : l.any f = l.any g := by
  induction l with
  | nil => rfl
  | cons a rest ih =>
    simp only [List.any_cons]
    rw [h a (by simp), ih (fun x hx => h x (by simp [hx]))]

theorem filter_congr_mem {α : Type} {l : List α} {f g : α → Bool}
    (h : ∀ x ∈ l, f x = g x) : l.filter f = l.filter g := by
  induction l with
  | nil => rfl
  | cons a rest ih =>
    simp only [List.filter_cons]
    rw [h a (by simp), ih (fun x hx => h x (by simp [hx]))]

/-! ## Claim theorems: validation (C1) -/

theorem validate_component_too_long (s : String) (h : s.length > 1000) :
    validateAndSanitizeParams "get_anime_component"
      [("componentName", JsVal.str s)] =
      .error ("Validation failed for get_anime_component: " ++
        "componentName: String must contain at most 1000 character(s)") := by
  have hm : lookupEntry methodSchemas "get_anime_component" =
      some [("componentName", FieldSpec.requiredString)] := rfl
  have hp : lookupEntry [("componentName", JsVal.str s)] "componentName" =
      some (JsVal.str s) := by simp [lookupEntry]
  simp only [validateAndSanitizeParams, hm]
  simp only [List.map_cons, List.map_nil, checkField, hp]
  rw [if_neg (show ¬s.length < 1 by omega)]
  rw [if_pos (show s.length > 1000 by omega)]
  rfl

/-- Claim C1 (the code diverges from it): the `call_tool` envelope schema
validates only the tool `name` (its `arguments` are `z.any().optional()`),
so a `get_anime_component` call with `componentName` missing passes
validation unchanged (i), the breaker-wrapped handler is invoked (ii), and
the tool handler then throws a TypeError (iii) that the shared breaker
counts — twice (iv).  The `methodSchemas` registry itself carries the
per-tool schema the claim describes: applied to method
`get_anime_component` it rejects a missing `componentName` naming the
field (v), rejects a 2000-character name via the 1000-character bound
(vi), and accepts `"anime"` (vii), whose response contains `"anime()"`
(viii).  A genuine validation failure (a `call_tool` request with no
`name`) is thrown before the breaker: the handler is not invoked and the
breaker state is untouched (ix, x). -/
theorem c1_tool_args_bypass_validation :
    validateAndSanitizeParams "call_tool"
      [("name", JsVal.str "get_anime_component"),
       ("arguments", JsVal.obj [])] =
      .ok [("name", JsVal.str "get_anime_component"),
       ("arguments", JsVal.obj [])] ∧
    handleRequestOpCount "call_tool"
      [("name", JsVal.str "get_anime_component"),
       ("arguments", JsVal.obj [])] initialBreaker 0 = 1 ∧
    handleGetAnimeComponent [] (Cache.mk []) 0 = none ∧
    (handleRequest "call_tool"
      [("name", JsVal.str "get_anime_component"),
       ("arguments", JsVal.obj [])] initialBreaker 0 0
      (fun vp => callToolOp vp 0 0 (fun _ cb =>
        ((handleGetAnimeComponent (argsOf vp) (Cache.mk []) 0).map
          Prod.fst, cb)))).2.failures = 2 ∧
    validateAndSanitizeParams "get_anime_component" [] =
      .error
        "Validation failed for get_anime_component: componentName: Required" ∧
    validateAndSanitizeParams "get_anime_component"
      [("componentName", JsVal.str (String.mk (List.replicate 2000 'a')))] =
      .error ("Validation failed for get_anime_component: " ++
        "componentName: String must contain at most 1000 character(s)") ∧
    validateAndSanitizeParams "get_anime_component"
      [("componentName", JsVal.str "anime")] =
      .ok [("componentName", JsVal.str "anime")] ∧
    (handleGetAnimeComponent [("componentName", JsVal.str "anime")]
      (Cache.mk []) 0).map
      (fun p => strContains (responseText p.1) "anime()") = some true ∧
    validateAndSanitizeParams "call_tool" [] =
      .error "Validation failed for call_tool: name: Required" ∧
    (handleRequestOpCount "call_tool" [] initialBreaker 0 = 0 ∧
      (handleRequest "call_tool" [] initialBreaker 0 0
        (fun vp => callToolOp vp 0 0 failingToolRun)).2 = initialBreaker) :=
  ⟨rfl, rfl, rfl, rfl, rfl,
    validate_component_too_long _ (by simp [String.length]),
    rfl, rfl, rfl, rfl, rfl⟩

/-! ## Claim theorems: search (C7) -/

/-- Claim C7: on this knowledge base the search filter is exactly a
case-insensitive substring match of the query across title, description,
category, tags and code (the source lowercases every field but the tags —
which are all already lowercase); the query `"stagger"` returns a results
text that mentions both stagger-tagged examples (`stagger-grid` and
`text-animation`); and the query `"zzzznomatch"` yields the structured
no-matches response with suggested search terms — a normal return value of
the total function `searchExamples`, not a thrown error. -/
theorem c7_search_semantics :
    (∀ q : String,
      animeExamples.filter (matchesQuery (lowerChars q.data)) =
        animeExamples.filter (specMatchesQuery q)) ∧
    strContains (responseText (searchExamples "stagger")) "stagger-grid" =
      true ∧
    strContains (responseText (searchExamples "stagger")) "text-animation" =
      true ∧
    searchExamples "zzzznomatch" =
      ⟨[⟨"text", noMatchesText "zzzznomatch"⟩]⟩ ∧
    strContains (noMatchesText "zzzznomatch")
      "Try searching for terms like" = true := by
  have htags : ∀ e ∈ animeExamples, ∀ t ∈ e.tags,
      lowerChars t.data = t.data := by decide
  refine ⟨?_, rfl, rfl, rfl, rfl⟩
  intro q
  refine filter_congr_mem (fun e he => ?_)
  have htag : e.tags.any (fun tag => hasSub (lowerChars q.data) tag.data) =
      e.tags.any (fun tag =>
        hasSub (lowerChars q.data) (lowerChars tag.data)) :=
    any_congr (fun t ht => by rw [htags e he t ht])
  simp only [matchesQuery, specMatchesQuery]
  rw [htag]

/-! ## Claim theorems: not-found lookups (C8) -/

/-- Claim C8: for every topic whose normalized form is not a key of the
docs table, `getDocumentation` returns a normal not-found result whose
text lists every available topic; likewise `getComponentInfo` with an
unknown component name returns a result listing every valid component
name.  Both are ordinary return values of total functions — nothing is
thrown. -/
theorem c8_not_found_results (topic name : String)
    (htopic : lookupEntry docsTable (normalizeTopic topic) = none)
    (hname : lookupEntry componentsTable (normalizeComponentName name) =
      none) :
    getDocumentation topic = ⟨[⟨"text", docsNotFoundText topic⟩]⟩ ∧
    (∀ k ∈ docsKeys, strContains (docsNotFoundText topic) k = true) ∧
    getComponentInfo name = ⟨[⟨"text", componentNotFoundText name⟩]⟩ ∧
    (∀ k ∈ componentKeys,
      strContains (componentNotFoundText name) k = true) := by
  have hdocs : ∀ k ∈ docsKeys, strContains docsNotFoundTail k = true := by
    decide
  have hcomp : ∀ k ∈ componentKeys,
      strContains componentNotFoundTail k = true := by decide
  refine ⟨?_, ?_, ?_, ?_⟩
  · simp [getDocumentation, htopic]
  · intro k hk
    exact strContains_append_right _ _ _ (hdocs k hk)
  · simp [getComponentInfo, hname]
  · intro k hk
    exact strContains_append_right _ _ _ (hcomp k hk)

/-- Witness for C8 at the spec's own example inputs. -/
theorem c8_not_found_results_witness :
    (lookupEntry docsTable (normalizeTopic "unknown-topic") = none ∧
      lookupEntry componentsTable
        (normalizeComponentName "nonexistent") = none) ∧
    (getDocumentation "unknown-topic" =
        ⟨[⟨"text", docsNotFoundText "unknown-topic"⟩]⟩ ∧
      (∀ k ∈ docsKeys,
        strContains (docsNotFoundText "unknown-topic") k = true) ∧
      getComponentInfo "nonexistent" =
        ⟨[⟨"text", componentNotFoundText "nonexistent"⟩]⟩ ∧
      (∀ k ∈ componentKeys,
        strContains (componentNotFoundText "nonexistent") k = true)) :=
  ⟨⟨rfl, rfl⟩, c8_not_found_results "unknown-topic" "nonexistent" rfl rfl⟩

/-! ## Claim theorems: nested breaker on the call_tool path (C9) -/

/-- Claim C9: whenever a `call_tool` request reaches an existing tool whose
handler throws, the shared external breaker counts the failure twice —
once in the inner `execute` wrapping the tool handler and once in the
outer `execute` of `handleRequest` — so `failures` grows by exactly 2 per
failing tool invocation; concretely, three consecutive failing tool calls
(not five) drive the breaker from `CLOSED` (failures 0, then 2, then 4,
still `CLOSED`) to `OPEN` (failures 6). -/
theorem c9_double_failure_count (cb : CircuitBreakerState)
    (nowO innerN innerE endO : Int) (name : String)
    (hAdm : (tryAdmit externalOptions cb nowO).isSome = true)
    (hname : toolHandlerNames.contains name = true) :
    (execute externalOptions cb nowO endO
      (callToolOp [("name", JsVal.str name)] innerN innerE
        failingToolRun)).2.failures = cb.failures + 2 ∧
    (callToolFailStep (callToolFailStep initialBreaker 0) 1).state =
      CLOSED ∧
    (callToolFailStep (callToolFailStep initialBreaker 0) 1).failures = 4 ∧
    (callToolFailStep
      (callToolFailStep (callToolFailStep initialBreaker 0) 1) 2).state =
      OPEN ∧
    (callToolFailStep
      (callToolFailStep (callToolFailStep initialBreaker 0) 1) 2).failures =
      6 := by
  refine ⟨?_, rfl, rfl, rfl, rfl⟩
  obtain ⟨cb1, h1⟩ := Option.isSome_iff_exists.mp hAdm
  have hne := tryAdmit_some_ne_open h1
  have hf := (tryAdmit_some_fields h1).1
  have hlook : lookupEntry [("name", JsVal.str name)] "name" =
      some (JsVal.str name) := by simp [lookupEntry]
  have hinner : execute externalOptions cb1 innerN innerE
      (failingToolRun name) =
      (.failed, onFailure externalOptions cb1 innerE) := by
    simp [execute, tryAdmit_of_ne_open hne, failingToolRun]
  have hmem : name ∈ toolHandlerNames := by simpa using hname
  have hop : callToolOp [("name", JsVal.str name)] innerN innerE
      failingToolRun cb1 =
      (none, onFailure externalOptions cb1 innerE) := by
    simp [callToolOp, hlook, hmem, hinner]
  simp only [execute, h1, hop]
  simp only [onFailure, hf]

/-- Witness for C9 at the initial breaker and the `get_anime_docs` tool. -/
theorem c9_double_failure_count_witness :
    ((tryAdmit externalOptions initialBreaker 0).isSome = true ∧
      toolHandlerNames.contains "get_anime_docs" = true) ∧
    ((execute externalOptions initialBreaker 0 0
      (callToolOp [("name", JsVal.str "get_anime_docs")] 0 0
        failingToolRun)).2.failures = initialBreaker.failures + 2 ∧
    (callToolFailStep (callToolFailStep initialBreaker 0) 1).state =
      CLOSED ∧
    (callToolFailStep (callToolFailStep initialBreaker 0) 1).failures = 4 ∧
    (callToolFailStep
      (callToolFailStep (callToolFailStep initialBreaker 0) 1) 2).state =
      OPEN ∧
    (callToolFailStep
      (callToolFailStep (callToolFailStep initialBreaker 0) 1) 2).failures =
      6) :=
  ⟨⟨rfl, rfl⟩,
    c9_double_failure_count initialBreaker 0 0 0 0 "get_anime_docs" rfl rfl⟩

/-! ## Claim theorems: one shared breaker gates every method (C10) -/

/-- Claim C10: every registered inbound method — the purely local
`list_resources`, `list_resource_templates`, `list_tools` and
`list_prompts` included — runs its handler through the single shared
external breaker inside `handleRequest`; whenever that breaker is `OPEN`
and the reset timeout has not elapsed, the handler of any request is never
invoked (count 0, whatever the params), every request whose params pass
validation is rejected with the breaker-open error and the breaker state
is left untouched, and in particular the four local list methods (whose
empty-object schemas accept the empty params) are all rejected this way. -/
theorem c10_all_methods_gated (method : String) (params : Params)
    {α : Type}
    (handler : Params → CircuitBreakerState →
      Option α × CircuitBreakerState)
    (cb : CircuitBreakerState) (now endNow : Int)
    (_hm : method ∈ registeredMethods)
    (hopen : cb.state = OPEN)
    (hreset : shouldAttemptReset externalOptions cb now = false) :
    handleRequestOpCount method params cb now = 0 ∧
    (∀ vp, validateAndSanitizeParams method params = .ok vp →
      handleRequest method params cb now endNow handler =
        (.breakerOpen, cb)) ∧
    (∀ m ∈ (["list_resources", "list_resource_templates", "list_tools",
        "list_prompts"] : List String),
      handleRequest m ([] : Params) cb now endNow handler =
        (.breakerOpen, cb)) := by
  have hexec : ∀ (op : CircuitBreakerState →
      Option α × CircuitBreakerState),
      execute externalOptions cb now endNow op = (.rejectedOpen, cb) :=
    fun op => (execute_open_rejected hopen hreset endNow op).1
  have hcount : executeOpCount externalOptions cb now = 0 :=
    (execute_open_rejected hopen hreset endNow
      (fun c => ((none : Option Unit), c))).2
  have hgen : ∀ (m' : String),
      validateAndSanitizeParams m' ([] : Params) = .ok ([] : Params) →
      handleRequest m' ([] : Params) cb now endNow handler =
        (.breakerOpen, cb) := by
    intro m' hv
    simp [handleRequest, hv, hexec (handler [])]
  refine ⟨?_, ?_, ?_⟩
  · unfold handleRequestOpCount
    cases hv : validateAndSanitizeParams method params with
    | error e => rfl
    | ok vp => exact hcount
  · intro vp hvp
    simp [handleRequest, hvp, hexec (handler vp)]
  · intro m hm'
    fin_cases hm'
    · exact hgen _ rfl
    · exact hgen _ rfl
    · exact hgen _ rfl
    · exact hgen _ rfl

/-- Witness for C10 at a concrete open breaker and the local
`list_tools` method. -/
theorem c10_all_methods_gated_witness :
    ("list_tools" ∈ registeredMethods ∧
      (⟨5, some 0, OPEN⟩ : CircuitBreakerState).state = OPEN ∧
      shouldAttemptReset externalOptions ⟨5, some 0, OPEN⟩ 10 = false) ∧
    (handleRequestOpCount "list_tools" [] ⟨5, some 0, OPEN⟩ 10 = 0 ∧
    (∀ vp, validateAndSanitizeParams "list_tools" ([] : Params) = .ok vp →
      handleRequest "list_tools" ([] : Params) ⟨5, some 0, OPEN⟩ 10 11
        (fun _ c => (some (0 : Nat), c)) =
        (.breakerOpen, ⟨5, some 0, OPEN⟩)) ∧
    (∀ m ∈ (["list_resources", "list_resource_templates", "list_tools",
        "list_prompts"] : List String),
      handleRequest m ([] : Params) ⟨5, some 0, OPEN⟩ 10 11
        (fun _ c => (some (0 : Nat), c)) =
        (.breakerOpen, ⟨5, some 0, OPEN⟩))) :=
  ⟨⟨by decide, rfl, by decide⟩,
    c10_all_methods_gated "list_tools" [] (fun _ c => (some (0 : Nat), c))
      ⟨5, some 0, OPEN⟩ 10 11 (by decide) rfl (by decide)⟩

end AnimeMcp

